import Mathlib

/-!
Shallow embedding of the Steam games dashboard chatbot
(`src/app.py` and `src/chatbot.py`).

The repository renders a dashboard over a CSV of Steam game rows and
answers free-text queries with a rule-based chatbot (`simple_chatbot`)
that branches on substring matches in the lowercased query, plus an
optional AI bridge (`ai_chatbot`) that forwards the question together
with a 40-row data sample to an external model.

Modelling choices:
* a dataframe row is a `GameRecord` with the four columns the code
  touches (`price`, `genres`, `developer`, `release_year`); the loaded
  dataframe `df` is a `List GameRecord` passed explicitly;
* Python strings are Lean `String`s (a `String` in this toolchain is a
  structure over `data : List Char`), `str.lower()` is `lowerStr`, and
  the Python `in` substring test is `strIn`;
* `df['price'].mean()` is `meanPrice`: pandas yields `NaN` on an empty
  column, modelled as `none`, and `f"{x:.2f}"` renders `NaN` as `"nan"`;
* `series.value_counts().idxmax()` is `valueCountsIdxmax`: counts are
  grouped in order of first occurrence and the first key attaining the
  maximal count wins; on an empty series pandas raises, modelled as
  `none` propagating to a `none` chatbot result;
* `df.groupby("release_year").size()` is `gamesPerYear`: the distinct
  years sorted ascending, each paired with its row count;
* the external model call is an explicit oracle argument
  `gen : String → Except String String`; `ai_chatbot` also returns the
  number of oracle invocations so that "performs no network call" is a
  statement about the returned count.
-/

/-- Python `str.lower()` restricted to the ASCII range that
`Char.toLower` covers; the queries in the spec are ASCII. -/
def lowerStr (s : String) : String :=
  ⟨s.data.map Char.toLower⟩

/-- Does the text start with the pattern? (helper for `strIn`). -/
def beginsWith : List Char → List Char → Bool
  | [], _ => true
  | _ :: _, [] => false
  | a :: p, b :: s => a == b && beginsWith p s

/-- Substring containment on character lists, Python `pat in s`. -/
def subList : List Char → List Char → Bool
  | p, [] => p.isEmpty
  | p, b :: s => beginsWith p (b :: s) || subList p s

/-- Python `pat in s` on strings. -/
def strIn (pat s : String) : Bool :=
  subList pat.data s.data

/-- One row of the CSV: the columns the code reads. -/
structure GameRecord where
  price : ℚ
  genres : String
  developer : String
  release_year : Int
deriving DecidableEq, Repr

/-- The loaded dataframe `df`. -/
abbrev Dataset := List GameRecord

/-- `len(df)`. -/
def totalGames (df : Dataset) : Nat :=
  df.length

/-- `df['price'].mean()`: arithmetic mean of the price column; pandas
returns `NaN` on an empty column, modelled as `none`. -/
def meanPrice (df : Dataset) : Option ℚ :=
  if df.isEmpty then none
  else some ((df.map (fun r => r.price)).sum / (df.length : ℚ))

/-- Round to the nearest integer, ties to even, as Python float
formatting does. -/
def rndHalfEven (x : ℚ) : Int :=
  let d : Int := (x.den : Int)
  let q := Int.ediv x.num d
  let r := Int.emod x.num d
  if 2 * r < d then q
  else if d < 2 * r then q + 1
  else if q % 2 = 0 then q else q + 1

/-- Python `f"{x:.2f}"` on a finite value: two decimal digits after
rounding to hundredths. -/
def fmt2 (x : ℚ) : String :=
  let n : Int := rndHalfEven (x * 100)
  let sign := if n < 0 then "-" else ""
  let m := n.natAbs
  sign ++ toString (m / 100) ++ "." ++
    (if m % 100 < 10 then "0" else "") ++ toString (m % 100)

/-- Python `f"{x:.2f}"` where `x` may be pandas `NaN` (an empty-column
mean): `NaN` renders as `"nan"`. -/
def fmtMean : Option ℚ → String
  | none => "nan"
  | some x => fmt2 x

/-- The keys of `series.value_counts()` in their grouping order: first
occurrences, left to right. -/
def firstOccs : List String → List String
  | [] => []
  | a :: t => a :: firstOccs (t.filter (fun b => b != a))
termination_by l => l.length
decreasing_by
  simp only [List.length_cons]
  exact Nat.lt_succ_of_le (List.length_filter_le _ _)

/-- `idxmax` over a keys list with a count function: the first key
whose count is maximal (later keys replace the current best only when
strictly larger). -/
def bestOf (cnt : String → Nat) : List String → Option String
  | [] => none
  | g :: t =>
    match bestOf cnt t with
    | none => some g
    | some g' => if cnt g < cnt g' then some g' else some g

/-- `series.value_counts().idxmax()`: the most frequent value, ties
resolved by first occurrence; pandas raises on an empty series,
modelled as `none`. -/
def valueCountsIdxmax (l : List String) : Option String :=
  bestOf (fun g => l.count g) (firstOccs l)

/-- `df['genres'].value_counts().idxmax()`. -/
def topGenre (df : Dataset) : Option String :=
  valueCountsIdxmax (df.map (fun r => r.genres))

/-- `df['developer'].value_counts().idxmax()`. -/
def topDeveloper (df : Dataset) : Option String :=
  valueCountsIdxmax (df.map (fun r => r.developer))

/-- `df.groupby("release_year").size()`: distinct years ascending, each
with the number of rows bearing it. -/
def gamesPerYear (df : Dataset) : List (Int × Nat) :=
  let ys := df.map (fun r => r.release_year)
  (List.insertionSort (fun a b => a ≤ b) ys.dedup).map
    (fun y => (y, ys.count y))

/-- What `simple_chatbot` returns: a string, or (for the games-per-year
rule) a dataframe rendered as a table of (year, count). -/
inductive ChatResult where
  | text : String → ChatResult
  | table : List (Int × Nat) → ChatResult
deriving DecidableEq, Repr

/-- The fixed help message returned when no phrase rule matches. -/
def helpText : String :=
  "❌ Try: total games, average price, top genre, top developer"

/-- The summary text block of the `"summary"`/`"insight"` rule. -/
def summaryText (df : Dataset) (g d : String) : String :=
  "📊 Steam Dataset Summary:\n" ++
  "- Total Games: " ++ toString (totalGames df) ++ "\n" ++
  "- Average Price: $" ++ fmtMean (meanPrice df) ++ "\n" ++
  "- Top Genre: " ++ g ++ "\n" ++
  "- Top Developer: " ++ d

/-- `simple_chatbot` of `src/app.py` (lines 93-113): lowercase the
query, test the six phrase rules in order, first match wins; the
games-per-year rule returns a dataframe, every other branch a string.
`none` models the uncaught pandas exception of `idxmax` on an empty
column. -/
def simple_chatbot (df : Dataset) (q0 : String) : Option ChatResult :=
  let q := lowerStr q0
  if strIn "total games" q then
    some (.text ("🎮 Total Games: " ++ toString (totalGames df)))
  else if strIn "average price" q then
    some (.text ("💲 Average Price: $" ++ fmtMean (meanPrice df)))
  else if strIn "top genre" q then
    (topGenre df).map (fun g => .text ("🏆 Top Genre: " ++ g))
  else if strIn "top developer" q then
    (topDeveloper df).map (fun d => .text ("🏢 Top Developer: " ++ d))
  else if strIn "games per year" q then
    some (.table (gamesPerYear df))
  else if strIn "summary" q || strIn "insight" q then
    (topGenre df).bind (fun g =>
      (topDeveloper df).map (fun d => .text (summaryText df g d)))
  else
    some (.text helpText)

/-- `simple_chatbot` of `src/chatbot.py` (lines 71-98), embedded
separately from that file's text. -/
def simple_chatbot_cb (df : Dataset) (q0 : String) : Option ChatResult :=
  let q := lowerStr q0
  if strIn "total games" q then
    some (.text ("🎮 Total Games: " ++ toString (totalGames df)))
  else if strIn "average price" q then
    some (.text ("💲 Average Price: $" ++ fmtMean (meanPrice df)))
  else if strIn "top genre" q then
    (topGenre df).map (fun g => .text ("🏆 Top Genre: " ++ g))
  else if strIn "top developer" q then
    (topDeveloper df).map (fun d => .text ("🏢 Top Developer: " ++ d))
  else if strIn "games per year" q then
    some (.table (gamesPerYear df))
  else if strIn "summary" q || strIn "insight" q then
    (topGenre df).bind (fun g =>
      (topDeveloper df).map (fun d => .text (summaryText df g d)))
  else
    some (.text helpText)

/-- The spec's intent enumeration (section 4.3). -/
inductive Intent where
  | TotalGames | AveragePrice | TopGenre | TopDeveloper
  | GamesPerYear | Summary | Unrecognized
deriving DecidableEq, Repr

/-- The classifier implicit in `simple_chatbot`'s branch structure:
the same six substring tests, in the same order. -/
def classify (q0 : String) : Intent :=
  let q := lowerStr q0
  if strIn "total games" q then .TotalGames
  else if strIn "average price" q then .AveragePrice
  else if strIn "top genre" q then .TopGenre
  else if strIn "top developer" q then .TopDeveloper
  else if strIn "games per year" q then .GamesPerYear
  else if strIn "summary" q || strIn "insight" q then .Summary
  else .Unrecognized

/-- `USE_AI` as computed at startup (`src/app.py` lines 27-44): false
whenever no `GEMINI_API_KEY` credential is present; with a key present
it is true iff configuring the client succeeded. -/
def use_ai_flag (apiKey : Option String) (configureOk : Bool) : Bool :=
  match apiKey with
  | none => false
  | some _ => configureOk

/-- The bounded data sample the AI prompt embeds: `df.head(40)`. -/
def aiSample (df : Dataset) : Dataset :=
  df.take 40

/-- One row of `DataFrame.to_string()`; the exact pandas column layout
is presentation, what matters is that the text is a function of the
row. -/
def renderRow (r : GameRecord) : String :=
  toString r.price ++ " " ++ r.genres ++ " " ++ r.developer ++ " " ++
    toString r.release_year

/-- `df.head(40).to_string()`: the sample rows rendered as text. -/
def renderTable (rows : Dataset) : String :=
  String.intercalate "\n" (rows.map renderRow)

/-- The prompt `ai_chatbot` sends (`src/app.py` lines 121-132): the
fixed instructions, the 40-row sample, and the question. -/
def aiPrompt (df : Dataset) (question : String) : String :=
  "\nYou are a data analyst.\nAnswer ONLY using the Steam dataset below.\n\nDATA SAMPLE:\n"
    ++ renderTable (aiSample df)
    ++ "\n\nQUESTION:\n" ++ question
    ++ "\n\nGive a clear and concise answer.\n"

/-- The fixed message of the disabled state. -/
def aiDisabledText : String :=
  "⚠ AI is not enabled or API key is invalid."

/-- `ai_chatbot` (`src/app.py` lines 118-137). The external model call
is the oracle `gen`; the second component counts how many times the
oracle was invoked, so the disabled branch's count 0 states that no
network call is attempted. -/
def ai_chatbot (useAI : Bool) (gen : String → Except String String)
    (df : Dataset) (question : String) : String × Nat :=
  if useAI = false then (aiDisabledText, 0)
  else
    match gen (aiPrompt df question) with
    | .ok r => (r, 1)
    | .error e => ("❌ Gemini API error: " ++ e, 1)

/-- Test fixture: three rows with prices 10, 20, 30 (spec section 8). -/
def priceDemo : Dataset :=
  [⟨10, "Action", "Dev1", 2021⟩, ⟨20, "RPG", "Dev2", 2022⟩,
   ⟨30, "Indie", "Dev3", 2023⟩]

/-- Test fixture: genres Action x3, RPG x2 (spec section 8). -/
def genreDemo : Dataset :=
  [⟨10, "Action", "a", 2021⟩, ⟨20, "RPG", "b", 2021⟩,
   ⟨30, "Action", "c", 2022⟩, ⟨5, "RPG", "d", 2022⟩,
   ⟨1, "Action", "e", 2023⟩]

/-- Test fixture: release years 2021, 2021, 2022 (spec section 8). -/
def yearDemo : Dataset :=
  [⟨10, "Action", "a", 2021⟩, ⟨20, "RPG", "b", 2021⟩,
   ⟨30, "Indie", "c", 2022⟩]

/-- Spec-side property (section 4.2) used to state the top-genre claim:
`g` attains the maximal count in `gs`, and everything occurring before
`g`'s first occurrence has a strictly smaller count, so among ties the
first-encountered value wins. -/
def IsTopValue (gs : List String) (g : String) : Prop :=
  (∃ l1 l2, gs = l1 ++ g :: l2 ∧ g ∉ l1 ∧
      ∀ x ∈ l1, gs.count x < gs.count g) ∧
  ∀ x ∈ gs, gs.count x ≤ gs.count g

/-! ## Theorems -/

/-- C1: every query containing "total games" (after lowercasing) is
classified TotalGames and answered with the dataset's row count; the
rule wins even when "summary" is also present, because the rules are
tested short-circuiting in priority order and "total games" is tested
first. -/
theorem totalGames_rule_priority (df : Dataset) (q : String)
    (h : strIn "total games" (lowerStr q) = true) :
    classify q = Intent.TotalGames ∧
    simple_chatbot df q =
      some (.text ("🎮 Total Games: " ++ toString (totalGames df))) := by
  constructor
  · unfold classify
    simp [h]
  · unfold simple_chatbot
    simp [h]

/-- C1 witness: a query containing both "total games" and "summary"
resolves to the TotalGames rule. -/
theorem totalGames_rule_priority_witness :
    strIn "total games" (lowerStr "Total games and a summary please") = true ∧
    classify "Total games and a summary please" = Intent.TotalGames ∧
    simple_chatbot [] "Total games and a summary please" =
      some (.text ("🎮 Total Games: " ++ toString (totalGames []))) :=
  ⟨by rfl, totalGames_rule_priority [] "Total games and a summary please" (by rfl)⟩

/-- C9: the rule-based chatbots of `src/app.py` and `src/chatbot.py`
agree on every dataset and every query. -/
theorem chatbots_equivalent (df : Dataset) (q : String) :
    simple_chatbot df q = simple_chatbot_cb df q := rfl

/-- C4: with the AI disabled (as it is whenever no credential is
configured), `ai_chatbot` returns the fixed disabled message and
invokes the model oracle zero times, whatever the oracle is. -/
theorem ai_disabled_no_call (cfg : Bool)
    (gen : String → Except String String) (df : Dataset) (q : String) :
    use_ai_flag none cfg = false ∧
    ai_chatbot false gen df q = (aiDisabledText, 0) ∧
    ai_chatbot (use_ai_flag none cfg) gen df q = (aiDisabledText, 0) := by
  exact ⟨rfl, rfl, rfl⟩

/-- C3: a query matching none of the six phrase rules is classified
Unrecognized and answered with the one fixed help message, the same
for every such query and every dataset. -/
theorem unmatched_query_help (df : Dataset) (q : String)
    (h1 : strIn "total games" (lowerStr q) = false)
    (h2 : strIn "average price" (lowerStr q) = false)
    (h3 : strIn "top genre" (lowerStr q) = false)
    (h4 : strIn "top developer" (lowerStr q) = false)
    (h5 : strIn "games per year" (lowerStr q) = false)
    (h6 : strIn "summary" (lowerStr q) = false)
    (h7 : strIn "insight" (lowerStr q) = false) :
    classify q = Intent.Unrecognized ∧
    simple_chatbot df q = some (.text helpText) := by
  constructor
  · unfold classify
    simp [h1, h2, h3, h4, h5, h6, h7]
  · unfold simple_chatbot
    simp [h1, h2, h3, h4, h5, h6, h7]

/-- C3 witness: both the empty query and "xyz" are unmatched, and both
get the identical fixed help message. -/
theorem unmatched_query_help_witness :
    (classify "" = Intent.Unrecognized ∧
      simple_chatbot [] "" = some (.text helpText)) ∧
    (classify "xyz" = Intent.Unrecognized ∧
      simple_chatbot [] "xyz" = some (.text helpText)) :=
  ⟨unmatched_query_help [] "" rfl rfl rfl rfl rfl rfl rfl,
   unmatched_query_help [] "xyz" rfl rfl rfl rfl rfl rfl rfl⟩

/-- C2 counterexample: on the empty dataset the query "average price"
does not fail: pandas' mean of an empty column is NaN (`meanPrice`
yields `none`), and the chatbot renders it silently as the ordinary
answer text `$nan`.  No `EmptyDatasetError` exists anywhere in the
code. -/
theorem averagePrice_empty_cex :
    meanPrice [] = none ∧
    simple_chatbot [] "average price" =
      some (.text "💲 Average Price: $nan") :=
  ⟨rfl, rfl⟩

/-- C2 amended: on a dataset with zero rows, any query hitting the
average-price rule gets the user-visible text `💲 Average Price: $nan`
(NaN rendered by the two-decimal formatter), not a crash and not an
`EmptyDatasetError`. -/
theorem averagePrice_empty_nan (q : String)
    (h1 : strIn "total games" (lowerStr q) = false)
    (h2 : strIn "average price" (lowerStr q) = true) :
    simple_chatbot [] q = some (.text "💲 Average Price: $nan") := by
  unfold simple_chatbot
  simp [h1, h2]
  rfl

/-- C2 amended witness: the literal query "average price" on the empty
dataset. -/
theorem averagePrice_empty_nan_witness :
    simple_chatbot [] "average price" =
      some (.text "💲 Average Price: $nan") :=
  averagePrice_empty_nan "average price" rfl rfl

/-- C7: the average-price answer renders the arithmetic mean of the
price column with exactly two decimals; on prices 10, 20, 30 the mean
is 20 and the answer is the text `$20.00`. -/
theorem averagePrice_mean_format (df : Dataset) (q : String)
    (hne : df ≠ [])
    (h1 : strIn "total games" (lowerStr q) = false)
    (h2 : strIn "average price" (lowerStr q) = true) :
    (simple_chatbot df q =
      some (.text ("💲 Average Price: $" ++
        fmt2 ((df.map (fun r => r.price)).sum / (df.length : ℚ))))) ∧
    meanPrice priceDemo = some 20 ∧
    simple_chatbot priceDemo "average price" =
      some (.text "💲 Average Price: $20.00") := by
  have hm : meanPrice priceDemo = some 20 := by
    unfold meanPrice priceDemo
    norm_num
  have hf : fmt2 20 = "20.00" := by
    have h100 : (20 : ℚ) * 100 = 2000 := by norm_num
    rw [fmt2, h100]
    norm_num [rndHalfEven]
    decide
  refine ⟨?_, hm, ?_⟩
  · unfold simple_chatbot
    simp [h1, h2, meanPrice, fmtMean, hne]
  · have c1 : strIn "total games" (lowerStr "average price") = false := rfl
    have c2 : strIn "average price" (lowerStr "average price") = true := rfl
    unfold simple_chatbot
    simp [c1, c2, hm, fmtMean, hf]

/-- C7 witness: the three-row fixture with prices 10, 20, 30. -/
theorem averagePrice_mean_format_witness :
    (simple_chatbot priceDemo "average price" =
      some (.text ("💲 Average Price: $" ++
        fmt2 ((priceDemo.map (fun r => r.price)).sum /
          (priceDemo.length : ℚ))))) ∧
    meanPrice priceDemo = some 20 ∧
    simple_chatbot priceDemo "average price" =
      some (.text "💲 Average Price: $20.00") :=
  averagePrice_mean_format priceDemo "average price"
    (by simp [priceDemo]) rfl rfl

/-- C8: the data sample embedded in the AI prompt is the prefix of the
dataset of at most 40 rows: it is a prefix, its length is
`min 40 (length df)`, and the prompt depends on the dataset only
through that 40-row sample. -/
theorem ai_prompt_sample_bounded :
    (∀ df : Dataset, aiSample df <+: df ∧
      (aiSample df).length = min 40 df.length) ∧
    (∀ df df' : Dataset, ∀ q : String, aiSample df = aiSample df' →
      aiPrompt df q = aiPrompt df' q) := by
  constructor
  · intro df
    exact ⟨ List.take_prefix 40 df, List.length_take 40 df⟩
  · intro df df' q h
    unfold aiPrompt
    rw [h]

/-- C8 witness: two 41-row datasets agreeing on their first 40 rows
get the identical prompt, and the sample of a 41-row dataset has 40
rows and is one of its prefixes. -/
theorem ai_prompt_sample_bounded_witness :
    (aiSample (List.replicate 41 (⟨0, "A", "a", 2021⟩ : GameRecord)) <+:
        List.replicate 41 (⟨0, "A", "a", 2021⟩ : GameRecord) ∧
      (aiSample (List.replicate 41 (⟨0, "A", "a", 2021⟩ : GameRecord))).length =
        min 40 ((List.replicate 41 (⟨0, "A", "a", 2021⟩ : GameRecord)).length)) ∧
    aiPrompt (List.replicate 41 (⟨0, "A", "a", 2021⟩ : GameRecord)) "q" =
      aiPrompt (List.replicate 40 (⟨0, "A", "a", 2021⟩ : GameRecord) ++
        [⟨9, "B", "b", 2022⟩]) "q" :=
  ⟨by
      have h := ai_prompt_sample_bounded.1
        (List.replicate 41 (⟨0, "A", "a", 2021⟩ : GameRecord))
      exact ⟨h.1, by rw [h.2]⟩,
   ai_prompt_sample_bounded.2 _ _ "q" (by rfl)⟩

/-- Summing the count of every distinct element of a list recovers its
length. -/
theorem sum_dedup_counts (ys : List Int) :
    (ys.dedup.map (fun y => ys.count y)).sum = ys.length := by
  rw [← List.sum_toFinset _ (List.nodup_dedup ys)]
  have h : ys.dedup.toFinset = ys.toFinset := by
    ext a
    simp [List.mem_toFinset, List.mem_dedup]
  rw [h]
  exact List.sum_toFinset_count_eq_length ys

/-- C5: `gamesPerYear` lists the years strictly ascending (so each
year appears exactly once), every entry pairs a year of the dataset
with the number of rows bearing it, every year of the dataset has an
entry, and on years 2021, 2021, 2022 the table is
[(2021, 2), (2022, 1)]. -/
theorem gamesPerYear_groups (df : Dataset) :
    (List.Sorted (fun a b : Int => a < b)
        ((gamesPerYear df).map Prod.fst)) ∧
    (∀ p ∈ gamesPerYear df,
      p.1 ∈ df.map (fun r => r.release_year) ∧
      p.2 = (df.map (fun r => r.release_year)).count p.1) ∧
    (∀ y ∈ df.map (fun r => r.release_year),
      (y, (df.map (fun r => r.release_year)).count y) ∈ gamesPerYear df) ∧
    gamesPerYear yearDemo = [(2021, 2), (2022, 1)] := by
  refine ⟨?_, ?_, ?_, ?_⟩
  · unfold gamesPerYear
    rw [List.map_map]
    have hid : (Prod.fst ∘ fun y =>
        (y, (df.map (fun r => r.release_year)).count y)) = id := rfl
    rw [hid, List.map_id]
    have hs := List.sorted_insertionSort (fun a b : Int => a ≤ b)
      (df.map (fun r => r.release_year)).dedup
    have hn : (List.insertionSort (fun a b : Int => a ≤ b)
        (df.map (fun r => r.release_year)).dedup).Nodup :=
      (List.perm_insertionSort _ _).nodup_iff.mpr
        (List.nodup_dedup _)
    exact hs.lt_of_le hn
  · intro p hp
    unfold gamesPerYear at hp
    obtain ⟨y, hy, rfl⟩ := List.mem_map.mp hp
    have : y ∈ (df.map (fun r => r.release_year)).dedup :=
      (List.mem_insertionSort _).mp hy
    exact ⟨List.mem_dedup.mp this, rfl⟩
  · intro y hy
    unfold gamesPerYear
    exact List.mem_map.mpr ⟨y,
      (List.mem_insertionSort _).mpr (List.mem_dedup.mpr hy), rfl⟩
  · decide

/-- C10: the per-year counts of the games-per-year table sum to the
dataset's row count, the number the TotalGames intent reports. -/
theorem gamesPerYear_partition (df : Dataset) :
    ((gamesPerYear df).map Prod.snd).sum = totalGames df := by
  unfold gamesPerYear totalGames
  rw [List.map_map]
  have hid : (Prod.snd ∘ fun y =>
      (y, (df.map (fun r => r.release_year)).count y)) =
      fun y => (df.map (fun r => r.release_year)).count y := rfl
  rw [hid]
  have hperm : List.Perm ((List.insertionSort (fun a b : Int => a ≤ b)
      (df.map (fun r => r.release_year)).dedup).map
        (fun y => (df.map (fun r => r.release_year)).count y))
      (((df.map (fun r => r.release_year)).dedup).map
        (fun y => (df.map (fun r => r.release_year)).count y)) :=
    (List.perm_insertionSort _ _).map _
  rw [hperm.sum_eq, sum_dedup_counts, List.length_map]

/-- The keys `value_counts` groups are exactly the values of the
column. -/
theorem mem_firstOccs (x : String) (l : List String) :
    x ∈ firstOccs l ↔ x ∈ l := by
  induction l using firstOccs.induct with
  | case1 => simp [firstOccs]
  | case2 a t ih =>
    rw [firstOccs]
    by_cases hx : x = a
    · simp [hx]
    · simp [hx, ih, List.mem_filter, bne_iff_ne]

/-- `bestOf` returns the first key attaining the maximal count: the
keys list splits around the winner, everything before it counts
strictly less, and nothing counts more. -/
theorem bestOf_decomp (cnt : String → Nat) (l : List String) :
    l ≠ [] →
      ∃ g c1 c2, bestOf cnt l = some g ∧ l = c1 ++ g :: c2 ∧
        (∀ x ∈ c1, cnt x < cnt g) ∧ (∀ x ∈ l, cnt x ≤ cnt g) := by
  induction l with
  | nil => intro h; exact absurd rfl h
  | cons a t ih =>
    intro _
    by_cases htne : t = []
    · subst htne
      exact ⟨a, [], [], by simp [bestOf], rfl, by simp, by simp⟩
    · obtain ⟨g, c1, c2, hbest, hdec, hc1, hmax⟩ := ih htne
      have hstep : bestOf cnt (a :: t) =
          if cnt a < cnt g then some g else some a := by
        rw [bestOf, hbest]
      by_cases hlt : cnt a < cnt g
      · refine ⟨g, a :: c1, c2, ?_, by rw [hdec]; rfl, ?_, ?_⟩
        · rw [hstep, if_pos hlt]
        · intro x hx
          rcases List.mem_cons.mp hx with rfl | hx2
          exacts [hlt, hc1 x hx2]
        · intro x hx
          rcases List.mem_cons.mp hx with rfl | hx2
          exacts [Nat.le_of_lt hlt, hmax x hx2]
      · refine ⟨a, [], t, ?_, rfl, by simp, ?_⟩
        · rw [hstep, if_neg hlt]
        · intro x hx
          rcases List.mem_cons.mp hx with rfl | hx2
          · exact Nat.le_refl _
          · exact Nat.le_trans (hmax x hx2) (Nat.le_of_not_lt hlt)

/-- A split of a filtered list induces a split of the original list in
which every earlier element either fails the filter or lands in the
earlier filtered part. -/
theorem filter_decomp (p : String → Bool) (t : List String) :
    ∀ m1 g m2, t.filter p = m1 ++ g :: m2 →
      ∃ l1 l2, t = l1 ++ g :: l2 ∧
        ∀ x ∈ l1, p x = true → x ∈ m1 := by
  induction t with
  | nil =>
    intro m1 g m2 h
    rw [List.filter_nil] at h
    exact absurd h.symm (List.append_ne_nil_of_right_ne_nil _ (by simp))
  | cons b t' ih =>
    intro m1 g m2 h
    by_cases hp : p b
    · rw [List.filter_cons_of_pos hp] at h
      cases m1 with
      | nil =>
        simp only [List.nil_append] at h
        obtain ⟨rfl, hft⟩ : b = g ∧ t'.filter p = m2 :=
          ⟨List.head_eq_of_cons_eq h, List.tail_eq_of_cons_eq h⟩
        exact ⟨[], t', rfl, by simp⟩
      | cons c m1' =>
        simp only [List.cons_append] at h
        obtain ⟨rfl, hft⟩ : b = c ∧ t'.filter p = m1' ++ g :: m2 :=
          ⟨List.head_eq_of_cons_eq h, List.tail_eq_of_cons_eq h⟩
        obtain ⟨l1', l2, rfl, hmem⟩ := ih m1' g m2 hft
        refine ⟨b :: l1', l2, rfl, ?_⟩
        intro x hx hpx
        rcases List.mem_cons.mp hx with rfl | hx2
        · exact List.mem_cons_self _ _
        · exact List.mem_cons_of_mem _ (hmem x hx2 hpx)
    · rw [List.filter_cons_of_neg (by simpa using hp)] at h
      obtain ⟨l1', l2, rfl, hmem⟩ := ih m1 g m2 h
      refine ⟨b :: l1', l2, rfl, ?_⟩
      intro x hx hpx
      rcases List.mem_cons.mp hx with rfl | hx2
      · exact absurd hpx (by simpa using hp)
      · exact hmem x hx2 hpx

/-- A split of the grouping-order keys list induces a split of the
column around the winner's first occurrence: the winner is absent from
the part before it, and every element there is one of the earlier
keys. -/
theorem firstOccs_decomp (l : List String) :
    ∀ c1 g c2, firstOccs l = c1 ++ g :: c2 →
      ∃ l1 l2, l = l1 ++ g :: l2 ∧ g ∉ l1 ∧ ∀ x ∈ l1, x ∈ c1 := by
  induction l using firstOccs.induct with
  | case1 =>
    intro c1 g c2 h
    rw [firstOccs] at h
    exact absurd h.symm (List.append_ne_nil_of_right_ne_nil _ (by simp))
  | case2 a t ih =>
    intro c1 g c2 h
    rw [firstOccs] at h
    cases c1 with
    | nil =>
      simp only [List.nil_append] at h
      obtain rfl : a = g := List.head_eq_of_cons_eq h
      exact ⟨[], t, rfl, by simp, by simp⟩
    | cons c c1' =>
      simp only [List.cons_append] at h
      obtain rfl : a = c := List.head_eq_of_cons_eq h
      have hft : firstOccs (t.filter (fun b => b != a)) = c1' ++ g :: c2 :=
        List.tail_eq_of_cons_eq h
      have hgmem : g ∈ t.filter (fun b => b != a) := by
        have hg1 : g ∈ firstOccs (t.filter (fun b => b != a)) := by
          rw [hft]
          simp
        exact (mem_firstOccs _ _).mp hg1
      have hga : g ≠ a := by
        have hb2 := (List.mem_filter.mp hgmem).2
        simpa [bne_iff_ne] using hb2
      obtain ⟨m1, m2, hfeq, hgm1, hm1c⟩ := ih c1' g c2 hft
      obtain ⟨l1, l2, rfl, hl1⟩ :=
        filter_decomp (fun b => b != a) t m1 g m2 hfeq
      refine ⟨a :: l1, l2, rfl, ?_, ?_⟩
      · intro hg
        rcases List.mem_cons.mp hg with h1 | h2
        · exact hga h1
        · have hgb : (g != a) = true := by simpa [bne_iff_ne] using hga
          exact hgm1 (hl1 g h2 hgb)
      · intro x hx
        rcases List.mem_cons.mp hx with rfl | hx2
        · exact List.mem_cons_self _ _
        · by_cases hxa : x = a
          · subst hxa
            exact List.mem_cons_self _ _
          · have hxb : (x != a) = true := by simpa [bne_iff_ne] using hxa
            exact List.mem_cons_of_mem _ (hm1c x (hl1 x hx2 hxb))

/-- C6: on every non-empty dataset `topGenre` returns a genre whose
count in the genres column is maximal, and among tied maxima it is the
first-encountered one: everything occurring before its first
occurrence has a strictly smaller count. -/
theorem topGenre_most_frequent (df : Dataset) (h : df ≠ []) :
    ∃ g, topGenre df = some g ∧
      IsTopValue (df.map (fun r => r.genres)) g := by
  have hgs : df.map (fun r => r.genres) ≠ [] := by
    intro heq
    exact h (List.map_eq_nil_iff.mp heq)
  have hfo : firstOccs (df.map (fun r => r.genres)) ≠ [] := by
    cases hcase : df.map (fun r => r.genres) with
    | nil => exact absurd hcase hgs
    | cons a t =>
      rw [firstOccs]
      simp
  obtain ⟨g, c1, c2, hbest, hdec, hc1, hmax⟩ :=
    bestOf_decomp (fun x => (df.map (fun r => r.genres)).count x)
      (firstOccs (df.map (fun r => r.genres))) hfo
  refine ⟨g, hbest, ?_, ?_⟩
  · obtain ⟨l1, l2, hl, hgnl1, hmemc1⟩ :=
      firstOccs_decomp (df.map (fun r => r.genres)) c1 g c2 hdec
    exact ⟨l1, l2, hl, hgnl1, fun x hx => hc1 x (hmemc1 x hx)⟩
  · intro x hx
    exact hmax x ((mem_firstOccs x _).mpr hx)

/-- C6 witness: the fixture with genres Action, RPG, Action, RPG,
Action. -/
theorem topGenre_most_frequent_witness :
    genreDemo ≠ [] ∧
    ∃ g, topGenre genreDemo = some g ∧
      IsTopValue (genreDemo.map (fun r => r.genres)) g :=
  ⟨by simp [genreDemo], topGenre_most_frequent genreDemo (by simp [genreDemo])⟩
